import Mathlib

/-!
Verification of the GitHub profile viewer component
(`src/components/userComponent/UserComponent.tsx`).

The development shallowly embeds the component: JavaScript nullish values
are modelled by `Nullable` (distinguishing `undefined` from `null`, since
the render test `userData === null` distinguishes them), the GraphQL query
template by a string splice, the two mount effects and the fetch/timer
continuations by a step machine on the component state, and the JSX render
by a pure function that either produces a view description or raises
(models a JavaScript `TypeError` from an unguarded property access).
-/

namespace UserComponent

/-- A JavaScript value slot: `undefined`, `null`, or a proper value. -/
inductive Nullable (α : Type) where
  | undef : Nullable α
  | nullv : Nullable α
  | val : α → Nullable α
deriving DecidableEq, Repr

/-- `x ?. f` in the middle of an optional chain already known nullish or
starting from `x`: nullish short-circuits to `undefined`. -/
def Nullable.chain {α β : Type} (x : Nullable α) (f : α → Nullable β) : Nullable β :=
  match x with
  | .undef => .undef
  | .nullv => .undef
  | .val a => f a

/-- The value rendered for a slot: React renders `undefined`/`null` as empty. -/
def Nullable.toOpt {α : Type} : Nullable α → Option α
  | .undef => none
  | .nullv => none
  | .val a => some a

/-- `x === null` (strict equality with `null`: `undefined === null` is false). -/
def Nullable.isNull {α : Type} : Nullable α → Bool
  | .nullv => true
  | _ => false

/-- One repository node, as selected by the query (`id`, `name`, `url`). -/
structure Repository where
  id : String
  name : String
  url : String
deriving DecidableEq, Repr

/-- A `followers`/`following` object; `totalCount` may be missing at runtime. -/
structure TotalCount where
  totalCount : Nullable Nat
deriving DecidableEq, Repr

/-- The `repositories` connection object with its `nodes` array. -/
structure RepoConnection where
  nodes : Nullable (List Repository)
deriving DecidableEq, Repr

/-- The runtime shape of a fetched user object.  The TypeScript interface
declares every field required, but the runtime payload is untyped JSON, so
each field is modelled as possibly `undefined`/`null`. -/
structure User where
  login : Nullable String
  name : Nullable String
  avatarUrl : Nullable String
  url : Nullable String
  followers : Nullable TotalCount
  following : Nullable TotalCount
  repositories : Nullable RepoConnection
deriving DecidableEq, Repr

/-- The `data` object of a GraphQL response: `\x7b user: ... \x7d`. -/
structure DataObj where
  user : Nullable User
deriving DecidableEq, Repr

/-- A whole response payload: `\x7b data: ... \x7d`. -/
structure Payload where
  dataField : Nullable DataObj
deriving DecidableEq, Repr

/-- `data?.data?.user` from the fetch effect (line 73 of the source):
optional chaining turns any nullish link into `undefined`. -/
def extractUser (response : Nullable Payload) : Nullable User :=
  response.chain fun p => p.dataField.chain fun d => d.user

/-- Outcome of `fetchData(query)`: the promise rejects (network error /
thrown exception) or resolves with some payload. -/
inductive FetchResult where
  | error : FetchResult
  | success : Nullable Payload → FetchResult
deriving DecidableEq, Repr

/-- The view state held in the component hooks:
`userData` (`useState<User | null>(null)`), `filteredRepo` (`useState('')`),
`loading` (`useState(false)`). -/
structure ViewState where
  userData : Nullable User
  filteredRepo : String
  loading : Bool
deriving DecidableEq, Repr

/-- Component state together with the scheduler- and console-visible
effects: whether the 3-second timeout is still pending, and how many
diagnostics `console.error` has received. -/
structure MachineState where
  view : ViewState
  timerPending : Bool
  diagnostics : Nat
deriving DecidableEq, Repr

/-- State before any render: `\x7b null, "", false \x7d`, no timer, no logs. -/
def initialState : MachineState :=
  { view := { userData := .nullv, filteredRepo := "", loading := false }
    timerPending := false
    diagnostics := 0 }

/-- Running the two mount effects: the fetch effect issues the request
(no synchronous state change), the loading effect runs `setLoading(true)`
and schedules `setTimeout(.., 3000)`. -/
def mountStep (s : MachineState) : MachineState :=
  { s with view := { s.view with loading := true }, timerPending := true }

/-- The delay passed to `setTimeout` in the loading effect. -/
def timerDelayMs : Nat := 3000

/-- Asynchronous continuations that can settle after mount. -/
inductive Event where
  | fetchSettled : FetchResult → Event
  | timerFired : Event
deriving DecidableEq, Repr

/-- One continuation settling.  A rejected fetch hits the `catch` block:
`console.error` only, no state write.  A resolved fetch runs
`setUserData(data?.data?.user)`.  The timer runs `setLoading(false)`. -/
def step (s : MachineState) : Event → MachineState
  | .fetchSettled .error => { s with diagnostics := s.diagnostics + 1 }
  | .fetchSettled (.success resp) =>
      { s with view := { s.view with userData := extractUser resp } }
  | .timerFired =>
      { s with view := { s.view with loading := false }, timerPending := false }

/-- Settling a sequence of continuations in order. -/
def run (s : MachineState) (evs : List Event) : MachineState :=
  evs.foldl step s

/-- The loading effect's callback returns nothing, so no cleanup function is
registered for the effect (source lines 85-90 return `undefined`). -/
def loadingEffectCleanup : Option (MachineState → MachineState) := none

/-- Tearing the component down runs the effect cleanup if one was
registered; the source registers none. -/
def unmount (s : MachineState) : MachineState :=
  match loadingEffectCleanup with
  | some cleanup => cleanup s
  | none => s

/-- One invocation of the `UserRepositories` list-rendering collaborator
(source line 148): `key=\x7brepository.id\x7d filter=\x7bfilteredRepo\x7d
repositories=\x7b[repository]\x7d`. -/
structure UserRepositoriesCall where
  key : String
  filter : String
  repositories : List Repository
deriving DecidableEq, Repr

/-- The `SearchBar` invocation: it receives the current filter text
(and the setter, which carries no data). -/
structure SearchBarCall where
  filter : String
deriving DecidableEq, Repr

/-- What the profile branch of the JSX displays.  `none` fields render as
empty content / omitted attributes. -/
structure ProfileRender where
  avatarSrc : Option String
  loginText : Option String
  nameText : Option String
  followersCount : Option Nat
  followingCount : Option Nat
  githubHref : Option String
  searchBar : SearchBarCall
  repoCalls : Option (List UserRepositoriesCall)
deriving DecidableEq, Repr

/-- `userData?.followers.totalCount` / `userData?.following.totalCount`
(source lines 131 and 135).  Only the first link is optional: when the
user object is present but the nested object is nullish, the bare
`.totalCount` access raises a `TypeError`. -/
def readTotalCount (u : Nullable User) (f : User → Nullable TotalCount) :
    Except String (Option Nat) :=
  match u with
  | .undef => .ok none
  | .nullv => .ok none
  | .val x =>
    match f x with
    | .undef => .error "TypeError: cannot read totalCount of undefined"
    | .nullv => .error "TypeError: cannot read totalCount of null"
    | .val tc => .ok tc.totalCount.toOpt

/-- `userData?.repositories.nodes.map((repository) => <UserRepositories .. />)`
(source lines 147-149).  Only the first link is optional: a present user
object with nullish `repositories` or `nodes` raises a `TypeError`;
otherwise one collaborator call is made per node, each receiving the shared
filter and the one-element array `[repository]`. -/
def repoCalls (u : Nullable User) (filter : String) :
    Except String (Option (List UserRepositoriesCall)) :=
  match u with
  | .undef => .ok none
  | .nullv => .ok none
  | .val x =>
    match x.repositories with
    | .undef => .error "TypeError: cannot read nodes of undefined"
    | .nullv => .error "TypeError: cannot read nodes of null"
    | .val conn =>
      match conn.nodes with
      | .undef => .error "TypeError: cannot read map of undefined"
      | .nullv => .error "TypeError: cannot read map of null"
      | .val nodes =>
          .ok (some (nodes.map fun r => ⟨r.id, filter, [r]⟩))

/-- Evaluating the profile branch of the JSX (source lines 122-152), in
document order; the first raising access aborts the render. -/
def renderProfile (u : Nullable User) (filter : String) :
    Except String ProfileRender :=
  match readTotalCount u User.followers with
  | .error e => .error e
  | .ok followers =>
    match readTotalCount u User.following with
    | .error e => .error e
    | .ok following =>
      match repoCalls u filter with
      | .error e => .error e
      | .ok cards =>
          .ok
            { avatarSrc := (u.chain User.avatarUrl).toOpt
              loginText := (u.chain User.login).toOpt
              nameText := (u.chain User.name).toOpt
              followersCount := followers
              followingCount := following
              githubHref := (u.chain User.url).toOpt
              searchBar := ⟨filter⟩
              repoCalls := cards }

instance {ε α : Type} [DecidableEq ε] [DecidableEq α] : DecidableEq (Except ε α) := fun x y =>
  match x, y with
  | .error a, .error b =>
      if h : a = b then .isTrue (by rw [h]) else .isFalse (fun hh => by cases hh; exact h rfl)
  | .error _, .ok _ => .isFalse (fun hh => by cases hh)
  | .ok _, .error _ => .isFalse (fun hh => by cases hh)
  | .ok a, .ok b =>
      if h : a = b then .isTrue (by rw [h]) else .isFalse (fun hh => by cases hh; exact h rfl)

/-- The three shapes the component can render (source lines 115-155). -/
inductive RenderedView where
  | spinner : RenderedView
  | notFound : RenderedView
  | profile : Except String ProfileRender → RenderedView
deriving DecidableEq

/-- The render function: `loading ? spinner : userData === null ? 404 image
: profile markup` (source lines 117-153). -/
def render (s : ViewState) : RenderedView :=
  if s.loading then .spinner
  else if s.userData.isNull then .notFound
  else .profile (renderProfile s.userData s.filteredRepo)

/-- `const username = location.pathname.substring(1)` (source line 42). -/
def usernameFromPathname (pathname : String) : String :=
  pathname.drop 1

/-- The part of the query template before the interpolated username. -/
def queryHead : String := "query \x7b\n        user(login: \""

/-- The part of the query template after the interpolated username. -/
def queryTail : String :=
  "\") \x7b\n            login\n            name\n            avatarUrl\n            url\n            followers \x7b\n                totalCount\n            \x7d\n            following \x7b\n                totalCount\n            \x7d\n            repositories(first: 50) \x7b\n                nodes \x7b\n                id\n                name\n                url\n                \x7d\n            \x7d\n        \x7d\n    \x7d"

/-- The query template literal (source lines 43-63): the username is
interpolated directly between the fixed head and tail. -/
def query (username : String) : String :=
  queryHead ++ username ++ queryTail

/-- Props of the `Card` component. -/
structure CardProps where
  name : String
  url : String
deriving DecidableEq, Repr

/-- What one `Card` renders: an `h3` heading, and an `a` element whose
text and `href` are shown, with `target="_blank"`. -/
structure CardView where
  heading : String
  linkText : String
  linkHref : String
  opensInNewContext : Bool
deriving DecidableEq, Repr

/-- The `Card` component (Card source lines 364-376): pure function from
props to markup. -/
def Card (props : CardProps) : CardView :=
  { heading := props.name
    linkText := props.url
    linkHref := props.url
    opensInNewContext := true }

/-- A concrete repository node, used to instantiate general theorems. -/
def sampleRepo : Repository :=
  { id := "MDEwOlJlcG9zaXRvcnkxMjk2MjY5"
    name := "Hello-World"
    url := "https://github.com/octocat/Hello-World" }

/-- A fully populated fetched user, used to instantiate general theorems. -/
def sampleUser : User :=
  { login := .val "octocat"
    name := .val "The Octocat"
    avatarUrl := .val "https://avatars.githubusercontent.com/u/583231"
    url := .val "https://github.com/octocat"
    followers := .val ⟨.val 5⟩
    following := .val ⟨.val 2⟩
    repositories := .val ⟨.val [sampleRepo]⟩ }

/-- A user object whose nested `followers` object is missing at runtime. -/
def userMissingFollowers : User :=
  { sampleUser with followers := .undef }

/-- A malformed response: `\x7b data: null \x7d` (the shape GraphQL servers
return alongside a top-level `errors` array). -/
def malformedPayload : Nullable Payload := .val ⟨.nullv⟩

/-- A user-not-found response: `\x7b data: \x7b user: null \x7d \x7d`. -/
def notFoundPayload : Nullable Payload := .val ⟨.val ⟨.nullv⟩⟩

/-! ### Helper lemmas -/

theorem data_append (a b : String) : (a ++ b).data = a.data ++ b.data := by
  cases a
  cases b
  rfl

theorem infix_of_infix_tail {token : String} (u : String)
    (h : token.data <:+: queryTail.data) : token.data <:+: (query u).data := by
  refine h.trans ?_
  have hs : queryTail.data <:+ (query u).data := by
    show queryTail.data <:+ ((queryHead ++ u) ++ queryTail).data
    rw [data_append]
    exact List.suffix_append _ _
  exact hs.isInfix

theorem step_fetch_loading (s : MachineState) (r : FetchResult) :
    (step s (Event.fetchSettled r)).view.loading = s.view.loading := by
  cases r <;> rfl

theorem run_fetches_loading (fs : List FetchResult) (s : MachineState) :
    (run s (fs.map Event.fetchSettled)).view.loading = s.view.loading := by
  induction fs generalizing s with
  | nil => rfl
  | cons f fs ih =>
      show (run (step s (Event.fetchSettled f)) (fs.map Event.fetchSettled)).view.loading = _
      rw [ih, step_fetch_loading]

theorem run_append_events (s : MachineState) (a b : List Event) :
    run s (a ++ b) = run (run s a) b := by
  simp [run, List.foldl_append]

theorem render_spinner_of_loading (s : ViewState) (h : s.loading = true) :
    render s = RenderedView.spinner := by
  simp [render, h]

theorem render_ne_spinner_of_not_loading (s : ViewState) (h : s.loading = false) :
    render s ≠ RenderedView.spinner := by
  simp only [render, h, Bool.false_eq_true, if_false]
  split <;> simp

/-! ### Claim theorems -/

/-- C10: in the initial view state (loading false, profile absent, filter
empty), before the mount effects run, the render function produces the
not-found placeholder rather than the spinner; the spinner appears only
once the mount effect has set the loading flag. -/
theorem initial_render_not_found :
    initialState.view.loading = false ∧
    initialState.view.userData = Nullable.nullv ∧
    initialState.view.filteredRepo = "" ∧
    render initialState.view = RenderedView.notFound ∧
    render (mountStep initialState).view = RenderedView.spinner :=
  ⟨rfl, rfl, rfl, rfl, rfl⟩

/-- C2: the render follows the priority order: loading flag set → spinner
only; else profile strictly equal to null → not-found placeholder; else the
full profile view (whose body carries the child repository list). -/
theorem render_priority (s : ViewState) :
    (s.loading = true → render s = RenderedView.spinner) ∧
    (s.loading = false → s.userData.isNull = true → render s = RenderedView.notFound) ∧
    (s.loading = false → s.userData.isNull = false →
      render s = RenderedView.profile (renderProfile s.userData s.filteredRepo)) := by
  refine ⟨fun h => ?_, fun h hn => ?_, fun h hn => ?_⟩
  · simp [render, h]
  · simp [render, h, hn]
  · simp [render, h, hn]

/-- Witness for C2: the three branches at concrete states. -/
theorem render_priority_witness :
    render ⟨Nullable.nullv, "", true⟩ = RenderedView.spinner ∧
    render ⟨Nullable.nullv, "", false⟩ = RenderedView.notFound ∧
    render ⟨Nullable.undef, "abc", false⟩ =
      RenderedView.profile (renderProfile Nullable.undef "abc") :=
  ⟨(render_priority ⟨Nullable.nullv, "", true⟩).1 rfl,
   (render_priority ⟨Nullable.nullv, "", false⟩).2.1 rfl rfl,
   (render_priority ⟨Nullable.undef, "abc", false⟩).2.2 rfl rfl⟩

/-- C9: `Card` is a pure function of its `\x7b name, url \x7d` props (no
state, no effects, never fails); the name becomes the heading and the url is
both the link text and the link target, opened in a new browsing context. -/
theorem card_contract (n u : String) :
    (Card ⟨n, u⟩).heading = n ∧
    (Card ⟨n, u⟩).linkText = u ∧
    (Card ⟨n, u⟩).linkHref = u ∧
    (Card ⟨n, u⟩).opensInNewContext = true :=
  ⟨rfl, rfl, rfl, rfl⟩

/-- C7 counterexample: a mount torn down before the timer fires does NOT
get its timer cancelled — the timeout is still pending after `unmount`, and
its continuation still flips the loading flag of the torn-down state. -/
theorem timer_not_cancelled_on_unmount :
    (unmount (mountStep initialState)).timerPending = true ∧
    (step (unmount (mountStep initialState)) Event.timerFired).view.loading = false :=
  ⟨rfl, rfl⟩

/-- C7 amended: the loading effect registers no cleanup, so teardown leaves
the scheduled timeout pending and the timer continuation still acts on the
torn-down state. -/
theorem no_cleanup_registered (s : MachineState) :
    loadingEffectCleanup = none ∧
    unmount s = s ∧
    (unmount (mountStep s)).timerPending = true ∧
    (step (unmount (mountStep s)) Event.timerFired).view.loading = false :=
  ⟨rfl, rfl, rfl, rfl⟩

/-- C6: the mount effect sets the loading flag; however many fetch
continuations settle before the scheduled timer fires (the scheduler fires
it `timerDelayMs = 3000` milliseconds after mount), the flag stays set and
the spinner is rendered; once the timer continuation runs the flag is false
— and stays false through later fetch settlements — and the spinner is no
longer rendered. -/
theorem loading_window (fs fs2 : List FetchResult) :
    (mountStep initialState).view.loading = true ∧
    (run (mountStep initialState) (fs.map Event.fetchSettled)).view.loading = true ∧
    render (run (mountStep initialState) (fs.map Event.fetchSettled)).view =
      RenderedView.spinner ∧
    (run (mountStep initialState)
        (fs.map Event.fetchSettled ++
          Event.timerFired :: fs2.map Event.fetchSettled)).view.loading = false ∧
    render (run (mountStep initialState)
        (fs.map Event.fetchSettled ++
          Event.timerFired :: fs2.map Event.fetchSettled)).view ≠
      RenderedView.spinner ∧
    timerDelayMs = 3000 := by
  have hmid : (run (mountStep initialState) (fs.map Event.fetchSettled)).view.loading = true :=
    run_fetches_loading fs (mountStep initialState)
  have hfin : (run (mountStep initialState)
      (fs.map Event.fetchSettled ++
        Event.timerFired :: fs2.map Event.fetchSettled)).view.loading = false := by
    rw [run_append_events]
    show (run (step _ Event.timerFired) (fs2.map Event.fetchSettled)).view.loading = false
    rw [run_fetches_loading]
    rfl
  exact ⟨rfl, hmid, render_spinner_of_loading _ hmid, hfin,
    render_ne_spinner_of_not_loading _ hfin, rfl⟩

/-- C1 counterexample: a malformed response (`\x7b data: null \x7d`) is a
failed fetch of the user, yet the component records no diagnostic, stores
`undefined` (not the absent/null it initialised with), and — because the
render only tests strict equality with `null` — the view after the loading
phase is the profile branch, not the not-found placeholder. -/
theorem fetch_failure_counterexample :
    (run (mountStep initialState)
      [Event.fetchSettled (FetchResult.success malformedPayload),
       Event.timerFired]).diagnostics = 0 ∧
    (run (mountStep initialState)
      [Event.fetchSettled (FetchResult.success malformedPayload),
       Event.timerFired]).view.userData = Nullable.undef ∧
    render (run (mountStep initialState)
      [Event.fetchSettled (FetchResult.success malformedPayload),
       Event.timerFired]).view ≠ RenderedView.notFound := by
  refine ⟨rfl, rfl, ?_⟩
  decide

/-- C1 amended: a rejected fetch records one diagnostic and writes nothing
(the profile keeps its previous value, absent on a fresh mount); a resolved
fetch stores exactly `data?.data?.user` and records no diagnostic; only
when that stored value is strictly `null` does the view after the loading
phase show the not-found placeholder. -/
theorem fetch_settle_behavior (s : MachineState) (resp : Nullable Payload) :
    run s [Event.fetchSettled FetchResult.error] =
      { s with diagnostics := s.diagnostics + 1 } ∧
    (run s [Event.fetchSettled (FetchResult.success resp)]).view.userData =
      extractUser resp ∧
    (run s [Event.fetchSettled (FetchResult.success resp)]).diagnostics =
      s.diagnostics ∧
    (extractUser resp = Nullable.nullv →
      render (run (mountStep s)
        [Event.fetchSettled (FetchResult.success resp), Event.timerFired]).view =
        RenderedView.notFound) := by
  refine ⟨rfl, rfl, rfl, fun h => ?_⟩
  show render { userData := extractUser resp,
                filteredRepo := s.view.filteredRepo, loading := false } = _
  simp [render, h, Nullable.isNull]

/-- Witness for C1 amended: a user-not-found response stores `null` and the
placeholder is shown once the loading phase has elapsed. -/
theorem fetch_settle_behavior_witness :
    render (run (mountStep initialState)
      [Event.fetchSettled (FetchResult.success notFoundPayload),
       Event.timerFired]).view = RenderedView.notFound :=
  (fetch_settle_behavior initialState notFoundPayload).2.2.2 rfl

/-- C5 counterexample: a fetched user object whose nested `followers` field
is absent makes the profile render raise a `TypeError` (the chain
`userData?.followers.totalCount` only guards its first link), instead of
rendering empty content. -/
theorem nested_access_counterexample :
    renderProfile (Nullable.val userMissingFollowers) "" =
      Except.error "TypeError: cannot read totalCount of undefined" := rfl

/-- C5 amended: tolerant (optional) access applies only to the user object
itself: a nullish user value renders every field empty. The nested accesses
`followers.totalCount`, `following.totalCount`, `repositories.nodes` and
`nodes.map` are unguarded, so the render succeeds exactly when those nested
objects are present, in which case missing leaf fields render empty. -/
theorem nested_access_amended (u : User) (filter : String)
    (fc gc : TotalCount) (conn : RepoConnection) (nodes : List Repository)
    (h1 : u.followers = Nullable.val fc) (h2 : u.following = Nullable.val gc)
    (h3 : u.repositories = Nullable.val conn) (h4 : conn.nodes = Nullable.val nodes) :
    (renderProfile (Nullable.val u) filter =
      Except.ok
        { avatarSrc := u.avatarUrl.toOpt
          loginText := u.login.toOpt
          nameText := u.name.toOpt
          followersCount := fc.totalCount.toOpt
          followingCount := gc.totalCount.toOpt
          githubHref := u.url.toOpt
          searchBar := ⟨filter⟩
          repoCalls := some (nodes.map fun r => ⟨r.id, filter, [r]⟩) }) ∧
    renderProfile Nullable.undef filter =
      Except.ok ⟨none, none, none, none, none, none, ⟨filter⟩, none⟩ := by
  constructor
  · simp [renderProfile, readTotalCount, repoCalls, h1, h2, h3, h4, Nullable.chain]
  · rfl

/-- Witness for C5 amended, at a fully populated user. -/
theorem nested_access_amended_witness :
    (renderProfile (Nullable.val sampleUser) "x" =
      Except.ok
        { avatarSrc := some "https://avatars.githubusercontent.com/u/583231"
          loginText := some "octocat"
          nameText := some "The Octocat"
          followersCount := some 5
          followingCount := some 2
          githubHref := some "https://github.com/octocat"
          searchBar := ⟨"x"⟩
          repoCalls := some [⟨sampleRepo.id, "x", [sampleRepo]⟩] }) ∧
    renderProfile Nullable.undef "x" =
      Except.ok ⟨none, none, none, none, none, none, ⟨"x"⟩, none⟩ :=
  nested_access_amended sampleUser "x" ⟨Nullable.val 5⟩ ⟨Nullable.val 2⟩
    ⟨Nullable.val [sampleRepo]⟩ [sampleRepo] rfl rfl rfl rfl

/-- C8: when the fetched user carries a repository node list, the
list-rendering collaborator is invoked once per node, and every invocation
receives the shared filter string together with the one-element collection
holding exactly that repository. -/
theorem one_call_per_repository (u : User) (conn : RepoConnection)
    (nodes : List Repository) (filter : String)
    (h3 : u.repositories = Nullable.val conn) (h4 : conn.nodes = Nullable.val nodes) :
    ∃ calls, repoCalls (Nullable.val u) filter = Except.ok (some calls) ∧
      calls.length = nodes.length ∧
      (∀ c ∈ calls, c.filter = filter ∧ ∃ r ∈ nodes, c = ⟨r.id, filter, [r]⟩) ∧
      (∀ r ∈ nodes, (⟨r.id, filter, [r]⟩ : UserRepositoriesCall) ∈ calls) := by
  refine ⟨nodes.map fun r => ⟨r.id, filter, [r]⟩, ?_, by simp, ?_, ?_⟩
  · simp [repoCalls, h3, h4]
  · intro c hc
    rcases List.mem_map.mp hc with ⟨r, hr, hrc⟩
    exact ⟨by rw [← hrc], r, hr, hrc.symm⟩
  · intro r hr
    exact List.mem_map.mpr ⟨r, hr, rfl⟩

/-- Witness for C8, at a one-repository user. -/
theorem one_call_per_repository_witness :
    ∃ calls, repoCalls (Nullable.val sampleUser) "Hello" = Except.ok (some calls) ∧
      calls.length = [sampleRepo].length ∧
      (∀ c ∈ calls, c.filter = "Hello" ∧ ∃ r ∈ [sampleRepo], c = ⟨r.id, "Hello", [r]⟩) ∧
      (∀ r ∈ [sampleRepo], (⟨r.id, "Hello", [r]⟩ : UserRepositoriesCall) ∈ calls) :=
  one_call_per_repository sampleUser ⟨Nullable.val [sampleRepo]⟩ [sampleRepo] "Hello" rfl rfl

set_option maxRecDepth 40000 in
/-- C3: for every username the component issues the one query obtained by
splicing the username into the fixed template, and that query text requests
the login, display name, avatar URL, profile URL, follower and following
total counts, and the first 50 repositories with their id, name and url. -/
theorem query_requests_fields (u : String) :
    query u = queryHead ++ u ++ queryTail ∧
    "login".data <:+: (query u).data ∧
    "name".data <:+: (query u).data ∧
    "avatarUrl".data <:+: (query u).data ∧
    "url".data <:+: (query u).data ∧
    "followers \x7b\n                totalCount".data <:+: (query u).data ∧
    "following \x7b\n                totalCount".data <:+: (query u).data ∧
    "repositories(first: 50) \x7b\n                nodes \x7b\n                id\n                name\n                url".data <:+:
      (query u).data := by
  refine ⟨rfl, ?_, ?_, ?_, ?_, ?_, ?_, ?_⟩ <;> exact infix_of_infix_tail u (by decide)

/-- C4: the username is the raw path with the single leading separator
stripped and nothing else removed, and it is spliced verbatim — unescaped,
quote characters included — between the fixed head and tail of the query
template. -/
theorem username_spliced_verbatim (rest : String) :
    usernameFromPathname ("/" ++ rest) = rest ∧
    query (usernameFromPathname ("/" ++ rest)) = queryHead ++ rest ++ queryTail ∧
    (query rest).data = queryHead.data ++ rest.data ++ queryTail.data := by
  have hu : usernameFromPathname ("/" ++ rest) = rest := by
    show ("/" ++ rest).drop 1 = rest
    rw [String.drop_eq, data_append]
    rfl
  refine ⟨hu, ?_, ?_⟩
  · rw [hu]
    exact rfl
  · show ((queryHead ++ rest) ++ queryTail).data = _
    rw [data_append, data_append]

end UserComponent
